import Mathlib

/-!
Shallow embedding of the xbrl-converter-suite core (TypeScript) in Lean 4.

Embedded components:
  * src/lib/services/TaxonomyMappingService.ts  (staged taxonomy matching)
  * src/lib/services/XBRLGenerator.ts           (XBRL document generation)
  * src/lib/services/JobQueueService.ts         (retry state machine)
  * src/lib/parsers/BaseParser.ts, CsvParser.ts, XbrlParser (value
    sanitisation and the parse boundary)

Strings are manipulated as character lists (JavaScript string methods are
modelled character-wise); JavaScript numbers are modelled as exact
rationals, confidence scores as integers (the database stores them as
integer columns and every score the code produces is integral).
The database tables (taxonomies, taxonomy_mappings) behind the drizzle
queries are modelled as explicit row lists passed in as an environment;
a select with limit 1 takes the first row of the environment in order.
-/

namespace XbrlSuite

/-! ## JavaScript string primitives, modelled over character lists -/

/-- Character-wise lower-casing, the model of JS String.prototype.toLowerCase
(the labels involved are ASCII, where Char.toLower agrees with JS). -/
def lowerChars (l : List Char) : List Char := l.map Char.toLower

/-- Model of JS String.prototype.toLowerCase on whole strings. -/
def lowerStr (s : String) : String := String.mk (lowerChars s.data)

/-- Does the first list occur as a prefix of the second. -/
def charsPre : List Char → List Char → Bool
  | [], _ => true
  | _ :: _, [] => false
  | a :: as, b :: bs => a == b && charsPre as bs

/-- Model of JS String.prototype.includes: hay contains needle as a
contiguous substring (every string contains the empty string). -/
def charsHas : List Char → List Char → Bool
  | [], needle => charsPre needle []
  | c :: t, needle => charsPre needle (c :: t) || charsHas t needle

/-- Splitting at runs of whitespace, the model of JS s.split(/\s+/):
runs of consecutive whitespace are one separator, and a leading or
trailing run contributes an empty segment, as in JavaScript. -/
def splitWsRuns : List Char → List (List Char)
  | [] => [[]]
  | c :: cs =>
    let r := splitWsRuns cs
    if c.isWhitespace then
      match cs with
      | [] => [] :: r
      | c2 :: _ => if c2.isWhitespace then r else [] :: r
    else
      match r with
      | [] => [[c]]
      | w :: ws => (c :: w) :: ws

/-- JS truthiness of an optional string (undefined and the empty string
are falsy). -/
def jsTruthy : Option String → Bool
  | some s => decide (s ≠ "")
  | none => false

/-- Model of the JS idiom (x || dflt) on optional strings. -/
def jsOrDefault (o : Option String) (dflt : String) : String :=
  match o with
  | some s => if s = "" then dflt else s
  | none => dflt

/-- Model of JS String.prototype.trim. -/
def trimChars (s : String) : String :=
  String.mk (((s.data.dropWhile Char.isWhitespace).reverse.dropWhile
    Char.isWhitespace).reverse)

/-! ## Shared data model (src/lib/parsers/types.ts) -/

/-- Taxonomy framework constants (TAXONOMY_FRAMEWORKS). -/
inductive TaxonomyFramework
  | usGaap
  | ifrs
  | other
deriving DecidableEq, Repr

/-- Mapping method of a taxonomy match. -/
inductive MappingMethod
  | exact_match
  | fuzzy_match
  | ai_assisted
  | manual
deriving DecidableEq, Repr

/-- A JavaScript value carried by a FinancialItem: number, string or
boolean (never a composite). -/
inductive JsValue
  | num (q : ℚ)
  | str (s : String)
  | bool (b : Bool)
deriving DecidableEq, Repr

/-- TaxonomyMatch (parsers/types.ts). The synonyms field is optional here
because the fuzzy branch of mapFinancialItem reads a synonyms property
that MappingResult does not declare, yielding undefined at runtime. -/
structure TaxonomyMatch where
  xbrlTag : String
  taxonomyFramework : TaxonomyFramework
  confidence : ℤ
  mappingMethod : MappingMethod
  synonyms : Option (List String)
deriving DecidableEq, Repr

/-- FinancialItem (parsers/types.ts). The value is optional because the
generator defends against null values at runtime. -/
structure FinancialItem where
  concept : String
  value : Option JsValue
  unit : String
  decimals : Option ℤ := none
  isNil : Option Bool := none
  sourceReference : Option String := none
  confidence : Option ℤ := none
  taxonomyMatch : Option TaxonomyMatch := none
deriving DecidableEq, Repr

/-! ## Taxonomy database environment (tables taxonomies, taxonomy_mappings) -/

/-- One row of the taxonomies table. -/
structure TaxonomyRow where
  tid : Nat
  concept : String
  xbrlTag : String
  description : String
  synonyms : List String
  sector : String
  reportType : String
  taxonomyFramework : TaxonomyFramework
deriving DecidableEq, Repr

/-- One row of the taxonomy_mappings table (a learned mapping). -/
structure MappingRow where
  mid : Nat
  sourceField : String
  taxonomyId : Nat
  confidence : ℤ
  mappingMethod : MappingMethod
  isActive : Bool
deriving DecidableEq, Repr

/-- The database environment the matching service queries. -/
structure TaxonomyDb where
  taxonomies : List TaxonomyRow
  mappings : List MappingRow
deriving Repr

/-- MappingResult (TaxonomyMappingService.ts). -/
structure MappingResult where
  xbrlTag : String
  taxonomyFramework : TaxonomyFramework
  confidence : ℤ
  mappingMethod : MappingMethod
  taxonomyConcept : String
  description : Option String := none
deriving DecidableEq, Repr

/-! ## TaxonomyMappingService.calculateFuzzyScore -/

/-- Pairwise word-overlap accumulation of calculateFuzzyScore: +20 for an
equal pair of words, +10 for a pair where one word contains the other. -/
def overlapScore (searchWords candidateWords : List (List Char)) : ℤ :=
  searchWords.foldl (fun acc sw =>
    candidateWords.foldl (fun acc2 cw =>
      if sw = cw then acc2 + 20
      else if charsHas cw sw || charsHas sw cw then acc2 + 10
      else acc2) acc) 0

/-- TaxonomyMappingService.calculateFuzzyScore: 100 on case-insensitive
equality, 95 on a synonym hit, otherwise word-overlap points minus a
length-difference penalty, floored at 0, rounded, capped at 100. -/
def calculateFuzzyScore (searchTerm candidateTerm : String)
    (synonyms : List String) : ℤ :=
  let search := lowerChars searchTerm.data
  let candidate := lowerChars candidateTerm.data
  if search = candidate then 100
  else if synonyms.any (fun syn => search = lowerChars syn.data) then 95
  else
    let searchWords := splitWsRuns search
    let candidateWords := splitWsRuns candidate
    let overlap := overlapScore searchWords candidateWords
    let lengthDiff : ℚ := |(search.length : ℚ) - (candidate.length : ℚ)|
    let lengthPenalty : ℚ :=
      max 0 (lengthDiff / (max (search.length : ℚ) (candidate.length : ℚ)) * 20)
    let finalScore : ℚ := max 0 ((overlap : ℚ) - lengthPenalty)
    min 100 (round finalScore)

/-- Fuzzy score as the specification states it: exact case-insensitive
equality scores 100, a synonym-table hit scores 95, otherwise 20 points
per exact word overlap plus 10 points per partial (containment) word
overlap, minus the penalty 20 * |lenA - lenB| / max(lenA, lenB), the
result clamped to the range [0, 100]. -/
def specFuzzyScore (searchTerm candidateTerm : String)
    (synonyms : List String) : ℤ :=
  let search := lowerChars searchTerm.data
  let candidate := lowerChars candidateTerm.data
  if search = candidate then 100
  else if synonyms.any (fun syn => search = lowerChars syn.data) then 95
  else
    let pairs := (splitWsRuns search).flatMap
      (fun sw => (splitWsRuns candidate).map (fun cw => (sw, cw)))
    let exactPts : ℤ := 20 * (pairs.countP (fun p => decide (p.1 = p.2)) : ℤ)
    let partialPts : ℤ := 10 * (pairs.countP (fun p =>
      decide (p.1 ≠ p.2) && (charsHas p.2 p.1 || charsHas p.1 p.2)) : ℤ)
    let penalty : ℚ := 20 * |(search.length : ℚ) - (candidate.length : ℚ)| /
      max (search.length : ℚ) (candidate.length : ℚ)
    max 0 (min 100 (round ((exactPts + partialPts : ℤ) - penalty : ℚ)))

/-! ## TaxonomyMappingService queries and stages -/

/-- The first query of findExactMapping: the first active learned mapping
row keyed by the literal label, inner-joined to its taxonomy row, carrying
its stored confidence and stored mapping method. -/
def findLearnedMapping (db : TaxonomyDb) (concept : String) :
    Option MappingResult :=
  let joined := db.mappings.filterMap (fun m =>
    if m.sourceField = concept ∧ m.isActive then
      (db.taxonomies.find? (fun t => t.tid == m.taxonomyId)).map
        (fun t => (m, t))
    else none)
  match joined.head? with
  | some (m, t) =>
    some { xbrlTag := t.xbrlTag, taxonomyConcept := t.concept,
           description := some t.description, confidence := m.confidence,
           mappingMethod := m.mappingMethod,
           taxonomyFramework := t.taxonomyFramework }
  | none => none

/-- The second query of findExactMapping: the first taxonomy row whose
concept name or tag equals the label, fixed at confidence 100 with
method exact_match. -/
def findTaxonomyHit (db : TaxonomyDb) (concept : String) :
    Option MappingResult :=
  match db.taxonomies.find?
      (fun t => t.concept == concept || t.xbrlTag == concept) with
  | some t =>
    some { xbrlTag := t.xbrlTag, taxonomyConcept := t.concept,
           description := some t.description, confidence := 100,
           mappingMethod := .exact_match,
           taxonomyFramework := t.taxonomyFramework }
  | none => none

/-- TaxonomyMappingService.findExactMapping: first an active learned
mapping keyed by the literal label, then a direct hit on the taxonomy
table by concept name or tag. -/
def findExactMapping (db : TaxonomyDb) (concept : String) :
    Option MappingResult :=
  match findLearnedMapping db concept with
  | some r => some r
  | none => findTaxonomyHit db concept

/-- Earliest element of maximal confidence: the head of the JS stable
descending sort used by findFuzzyMatch and selectBestMatch. -/
def pickBest (x : TaxonomyRow × ℤ) (xs : List (TaxonomyRow × ℤ)) :
    TaxonomyRow × ℤ :=
  xs.foldl (fun best p => if best.2 < p.2 then p else best) x

/-- TaxonomyMappingService.findFuzzyMatch: shortlist taxonomy rows whose
concept contains the label case-insensitively, OR whose sector /
reportType equal the optional contexts, take 20, score each candidate,
keep scores of at least 80 and return the best-scoring candidate. -/
def findFuzzyMatch (db : TaxonomyDb) (concept : String)
    (sectorContext reportTypeContext : Option String) :
    Option MappingResult :=
  let condConcept : TaxonomyRow → Bool := fun t =>
    charsHas (lowerChars t.concept.data) (lowerChars concept.data)
  let conds : List (TaxonomyRow → Bool) :=
    [condConcept] ++
    (if jsTruthy sectorContext ∧ sectorContext ≠ some "all" then
      [fun t : TaxonomyRow => t.sector == sectorContext.getD ""] else []) ++
    (if jsTruthy reportTypeContext then
      [fun t : TaxonomyRow => t.reportType == reportTypeContext.getD ""] else [])
  let candidates :=
    (db.taxonomies.filter (fun t => conds.any (fun c => c t))).take 20
  let scored := candidates.map
    (fun t => (t, calculateFuzzyScore concept t.concept t.synonyms))
  let accepted := scored.filter (fun p => decide (80 ≤ p.2))
  match accepted with
  | [] => none
  | x :: xs =>
    let best := pickBest x xs
    some { xbrlTag := best.1.xbrlTag, taxonomyConcept := best.1.concept,
           description := some best.1.description, confidence := best.2,
           mappingMethod := .fuzzy_match,
           taxonomyFramework := best.1.taxonomyFramework }

/-- The static pattern table of simulateAIMapping, in source order. -/
def mappingPatterns : List (String × String × TaxonomyFramework × ℤ) :=
  [("cash", "us-gaap:CashAndCashEquivalentsCarryingAmount", .usGaap, 95),
   ("accounts receivable", "us-gaap:AccountsReceivableNetCurrent", .usGaap, 95),
   ("inventory", "us-gaap:InventoryNet", .usGaap, 90),
   ("property", "us-gaap:PropertyPlantAndEquipmentNet", .usGaap, 85),
   ("revenue", "us-gaap:Revenues", .usGaap, 95),
   ("sales", "us-gaap:Revenues", .usGaap, 90),
   ("net income", "us-gaap:NetIncomeLoss", .usGaap, 95),
   ("total assets", "us-gaap:Assets", .usGaap, 98),
   ("total liabilities", "us-gaap:Liabilities", .usGaap, 98),
   ("shareholders equity", "us-gaap:StockholdersEquity", .usGaap, 95)]

/-- TaxonomyMappingService.simulateAIMapping (the body of getAIMapping):
first pattern containing or contained in the lower-cased label wins; the
base confidence is lowered by 5 in a banking sector context and raised by
5 (capped at 100) when the numeric value magnitude exceeds 1,000,000. -/
def simulateAIMapping (sourceField : String) (sourceValue : Option JsValue)
    (sectorContext : Option String) : Option MappingResult :=
  let source := lowerChars sourceField.data
  match mappingPatterns.find?
      (fun p : String × String × TaxonomyFramework × ℤ =>
        charsHas source p.1.data || charsHas p.1.data source) with
  | none => none
  | some (pattern, tag, fw, conf) =>
    let adjusted := if sectorContext = some "banking" then conf - 5 else conf
    let adjusted :=
      match sourceValue with
      | some (.num q) =>
        if 1000000 < |q| then min 100 (adjusted + 5) else adjusted
      | _ => adjusted
    some { xbrlTag := tag, taxonomyConcept := pattern,
           taxonomyFramework := fw, confidence := adjusted,
           mappingMethod := .ai_assisted }

/-- The binary selection of the stable descending sort head: keep the
earlier candidate unless the later one is strictly more confident. -/
def pickBetter (best m : MappingResult) : MappingResult :=
  if best.confidence < m.confidence then m else best

/-- TaxonomyMappingService.selectBestMatch: stable descending sort by
confidence, then the first element — the earliest candidate of maximal
confidence (nulls are filtered by the caller). -/
def selectBestMatch (ms : List MappingResult) : Option MappingResult :=
  match ms with
  | [] => none
  | x :: xs => some (xs.foldl pickBetter x)

/-- Highest-confidence candidate as the specification words it, built by
recursion preferring the earlier candidate on ties. -/
def specHighestConfidence : List MappingResult → Option MappingResult
  | [] => none
  | r :: rest =>
    match specHighestConfidence rest with
    | none => some r
    | some b => some (if b.confidence ≤ r.confidence then r else b)

/-- The acceptance gate of each stage: the stage result only if its
confidence reaches the threshold. -/
def acceptAtLeast (threshold : ℤ) : Option MappingResult → Option MappingResult
  | some r => if threshold ≤ r.confidence then some r else none
  | none => none

/-- TaxonomyMappingService.mapFinancialItem: staged matching with early
returns at thresholds 95 (exact), 80 (fuzzy), 70 (AI-assisted), then the
best remaining candidate at threshold 60, otherwise none (manual
mapping). The stage results are pure, so computing them up front is
equivalent to the sequential awaits of the source. -/
def mapFinancialItem (db : TaxonomyDb) (item : FinancialItem)
    (sectorContext reportTypeContext : Option String) :
    Option TaxonomyMatch :=
  let exactMatch := findExactMapping db item.concept
  let fuzzyMatch := findFuzzyMatch db item.concept sectorContext
    reportTypeContext
  let aiMatch := simulateAIMapping item.concept item.value sectorContext
  match acceptAtLeast 95 exactMatch with
  | some e =>
    some { xbrlTag := e.xbrlTag, taxonomyFramework := e.taxonomyFramework,
           confidence := e.confidence, mappingMethod := .exact_match,
           synonyms := some [] }
  | none =>
  match acceptAtLeast 80 fuzzyMatch with
  | some f =>
    some { xbrlTag := f.xbrlTag, taxonomyFramework := f.taxonomyFramework,
           confidence := f.confidence, mappingMethod := .fuzzy_match,
           synonyms := none }
  | none =>
  match acceptAtLeast 70 aiMatch with
  | some a =>
    some { xbrlTag := a.xbrlTag, taxonomyFramework := a.taxonomyFramework,
           confidence := a.confidence, mappingMethod := .ai_assisted,
           synonyms := some [] }
  | none =>
  match acceptAtLeast 60 (selectBestMatch ([exactMatch, fuzzyMatch, aiMatch].reduceOption)) with
  | some b =>
    some { xbrlTag := b.xbrlTag, taxonomyFramework := b.taxonomyFramework,
           confidence := b.confidence, mappingMethod := b.mappingMethod,
           synonyms := some [] }
  | none => none

/-- Staged selection policy exactly as the specification states it: the
exact-stage result only if its confidence is at least 95, otherwise the
fuzzy-stage result only if at least 80, otherwise the assisted-stage
result only if at least 70, otherwise the highest-confidence candidate
among all stages if at least 60, otherwise none. -/
def specStagedSelection (db : TaxonomyDb) (item : FinancialItem)
    (sectorContext reportTypeContext : Option String) :
    Option TaxonomyMatch :=
  let exactMatch := findExactMapping db item.concept
  let fuzzyMatch := findFuzzyMatch db item.concept sectorContext
    reportTypeContext
  let aiMatch := simulateAIMapping item.concept item.value sectorContext
  match acceptAtLeast 95 exactMatch with
  | some e =>
    some { xbrlTag := e.xbrlTag, taxonomyFramework := e.taxonomyFramework,
           confidence := e.confidence, mappingMethod := .exact_match,
           synonyms := some [] }
  | none =>
  match acceptAtLeast 80 fuzzyMatch with
  | some f =>
    some { xbrlTag := f.xbrlTag, taxonomyFramework := f.taxonomyFramework,
           confidence := f.confidence, mappingMethod := .fuzzy_match,
           synonyms := none }
  | none =>
  match acceptAtLeast 70 aiMatch with
  | some a =>
    some { xbrlTag := a.xbrlTag, taxonomyFramework := a.taxonomyFramework,
           confidence := a.confidence, mappingMethod := .ai_assisted,
           synonyms := some [] }
  | none =>
  match acceptAtLeast 60 (specHighestConfidence ([exactMatch, fuzzyMatch, aiMatch].reduceOption)) with
  | some b =>
    some { xbrlTag := b.xbrlTag, taxonomyFramework := b.taxonomyFramework,
           confidence := b.confidence, mappingMethod := b.mappingMethod,
           synonyms := some [] }
  | none => none

/-- Batches of at most 50 items, the model of the slice loop in
mapFinancialItems. -/
def chunked50 : List FinancialItem → List (List FinancialItem)
  | [] => []
  | x :: xs => (x :: xs.take 49) :: chunked50 (xs.drop 49)
termination_by l => l.length
decreasing_by
  simp only [List.length_drop, List.length_cons]
  omega

/-- TaxonomyMappingService.mapFinancialItems: process the items in
batches of 50, mapping each item and pairing it with its match; the
batch results are appended in batch order. -/
def mapFinancialItems (db : TaxonomyDb) (items : List FinancialItem)
    (sectorContext reportTypeContext : Option String) :
    List (FinancialItem × Option TaxonomyMatch) :=
  (chunked50 items).flatMap (fun batch =>
    batch.map (fun item =>
      (item, mapFinancialItem db item sectorContext reportTypeContext)))

/-! ## Dates (JS Date, restricted to calendar dates in UTC) -/

/-- A calendar date; JS Date values in this code are only ever read and
written at day precision. -/
structure Date where
  year : Nat
  month : Nat
  day : Nat
deriving DecidableEq, Repr

/-- Two-digit zero padding. -/
def pad2 (n : Nat) : String := if n < 10 then "0" ++ toString n else toString n

/-- Four-digit zero padding. -/
def pad4 (n : Nat) : String :=
  if n < 10 then "000" ++ toString n
  else if n < 100 then "00" ++ toString n
  else if n < 1000 then "0" ++ toString n
  else toString n

/-- Model of date.toISOString().split('T')[0]. -/
def Date.iso (d : Date) : String :=
  pad4 d.year ++ "-" ++ pad2 d.month ++ "-" ++ pad2 d.day

/-- Model of the compact date of generateContextId: the ISO date with the
dashes removed. -/
def Date.compact (d : Date) : String :=
  pad4 d.year ++ pad2 d.month ++ pad2 d.day

def isLeapYear (y : Nat) : Bool :=
  (y % 4 == 0 && y % 100 != 0) || y % 400 == 0

def daysInMonth (y m : Nat) : Nat :=
  if m = 2 then (if isLeapYear y then 29 else 28)
  else if m = 4 ∨ m = 6 ∨ m = 9 ∨ m = 11 then 30
  else 31

/-- JS Date normalisation of a day overflowing its month (at most one
month of overflow arises here, from a Feb 29 that stops existing after
setFullYear moves the year). -/
def normalizeDate (d : Date) : Date :=
  if daysInMonth d.year d.month < d.day then
    if d.month < 12 then ⟨d.year, d.month + 1, d.day - daysInMonth d.year d.month⟩
    else ⟨d.year + 1, 1, d.day - daysInMonth d.year d.month⟩
  else d

/-- The effect of setDate(getDate() + 1) on a normalised date. -/
def addOneDay (d : Date) : Date :=
  if d.day < daysInMonth d.year d.month then ⟨d.year, d.month, d.day + 1⟩
  else if d.month < 12 then ⟨d.year, d.month + 1, 1⟩
  else ⟨d.year + 1, 1, 1⟩

/-! ## XBRLGenerator (src/lib/services/XBRLGenerator.ts) -/

/-- Statement type literals of FinancialStatement (parsers/types.ts). -/
inductive StatementType
  | balance_sheet
  | income_statement
  | cash_flow
  | equity_statement
deriving DecidableEq, Repr

/-- The string literal of a statement type, as interpolated into ids. -/
def StatementType.str : StatementType → String
  | .balance_sheet => "balance_sheet"
  | .income_statement => "income_statement"
  | .cash_flow => "cash_flow"
  | .equity_statement => "equity_statement"

/-- FinancialStatement (parsers/types.ts), the generator's input. -/
structure FinancialStatement where
  type : StatementType
  periodEndDate : Date
  fiscalYear : Nat
  fiscalQuarter : Option Nat := none
  items : List FinancialItem
deriving DecidableEq, Repr

/-- XBRLGenerationOptions (XBRLGenerator.ts). -/
structure XBRLGenerationOptions where
  taxonomyFramework : TaxonomyFramework
  currency : String
  documentDate : Date
  companyName : String
  identifier : Option String := none
  scheme : Option String := none
deriving DecidableEq, Repr

/-- XBRLGenerator.generateContextId: AsOf_, the compact period-end date,
the statement type, the fiscal year, Q and the fiscal quarter (an absent
or zero quarter interpolates as the empty string, like the JS idiom
fiscalQuarter || two quotes). -/
def generateContextId (st : FinancialStatement) : String :=
  let fq :=
    match st.fiscalQuarter with
    | some q => if q = 0 then "" else toString q
    | none => ""
  "AsOf_" ++ st.periodEndDate.compact ++ "_" ++ st.type.str ++ "_" ++
    toString st.fiscalYear ++ "Q" ++ fq

/-- XBRLGenerator.getPeriodStartDate: from a truthy fiscal quarter, the
first day of that quarter of the fiscal year (quarter months 0, 3, 6, 9,
zero-based in JS); otherwise one year before the period end plus one day
(setFullYear(y - 1) then setDate(d + 1), with JS date normalisation). -/
def getPeriodStartDate (st : FinancialStatement) : Date :=
  let fq := st.fiscalQuarter.getD 0
  if fq ≠ 0 then
    let startMonth := [0, 3, 6, 9].getD (fq - 1) 0
    ⟨st.fiscalYear, startMonth + 1, 1⟩
  else
    let d := st.periodEndDate
    addOneDay (normalizeDate ⟨d.year - 1, d.month, d.day⟩)

/-- Period of a context: an instant, or a start/end duration. -/
inductive Period
  | instant (date : String)
  | duration (startDate endDate : String)
deriving DecidableEq, Repr

/-- One xbrli:context element. -/
structure ContextElem where
  id : String
  identifier : String
  scheme : String
  period : Period
deriving DecidableEq, Repr

/-- XBRLGenerator.formatDate. -/
def formatDate (d : Date) : String := d.iso

/-- XBRLGenerator.createContextForStatement: balance sheets get an
instant period at the period end, every other statement type a
start/end duration. -/
def createContextForStatement (st : FinancialStatement)
    (options : XBRLGenerationOptions) : ContextElem :=
  { id := generateContextId st
    identifier := jsOrDefault options.identifier "UNKNOWN"
    scheme := jsOrDefault options.scheme "http://www.sec.gov/CIK"
    period :=
      if st.type = .balance_sheet then .instant (formatDate st.periodEndDate)
      else .duration (formatDate (getPeriodStartDate st))
        (formatDate st.periodEndDate) }

/-- One xbrli:unit element. -/
structure UnitElem where
  id : String
  measure : String
deriving DecidableEq, Repr

/-- XBRLGenerator.addUnitDefinitions: one monetary unit whose id is the
literal USD and whose measure is iso4217: followed by the target
currency, and one dimensionless pure unit. -/
def unitDefinitions (currency : String) : List UnitElem :=
  [{ id := "USD", measure := "iso4217:" ++ currency },
   { id := "pure", measure := "xbrli:pure" }]

/-- One fact element; entity-information (dei) facts carry no unitRef. -/
structure FactElem where
  tag : String
  contextRef : String
  unitRef : Option String
  isNil : Bool := false
  decimals : Option String := none
  text : Option String := none
deriving DecidableEq, Repr

/-- The concept cleanup of getXBRLTagName: strip every character that is
not ASCII alphanumeric. -/
def cleanConcept (s : String) : String :=
  String.mk (s.data.filter Char.isAlphanum)

/-- XBRLGenerator.getXBRLTagName: the mapped tag when a taxonomy match
with a truthy tag is present, otherwise a us-gaap tag synthesised from
the cleaned concept, otherwise none. -/
def getXBRLTagName (item : FinancialItem) : Option String :=
  let fromConcept : Option String :=
    if item.concept ≠ "" then some ("us-gaap:" ++ cleanConcept item.concept)
    else none
  match item.taxonomyMatch with
  | some tm => if tm.xbrlTag ≠ "" then some tm.xbrlTag else fromConcept
  | none => fromConcept

/-- Model of JS Number.prototype.toFixed with round-half-up, over exact
rationals. -/
def toFixedQ (v : ℚ) (d : Nat) : String :=
  let scaled : ℤ := round (v * (10 : ℚ) ^ d)
  let sign : List Char := if scaled < 0 then ['-'] else []
  let ds := (toString scaled.natAbs).data
  if d = 0 then String.mk (sign ++ ds)
  else
    let ds := if ds.length ≤ d then List.replicate (d + 1 - ds.length) '0' ++ ds else ds
    String.mk (sign ++ ds.take (ds.length - d) ++ ['.'] ++ ds.drop (ds.length - d))

/-- The trailing-zero trim of formatNumberValue: when the rendered number
contains a decimal point, strip the trailing zero run and a decimal
point left dangling before it. -/
def trimTrailingZeros (s : String) : String :=
  if s.data.contains '.' then
    let rev := s.data.reverse
    let zeros := rev.takeWhile (fun c => c == '0')
    if zeros.isEmpty then s
    else
      let rest := rev.dropWhile (fun c => c == '0')
      let rest :=
        match rest with
        | '.' :: t => t
        | _ => rest
      String.mk rest.reverse
  else s

/-- XBRLGenerator.formatNumberValue: non-negative decimals use toFixed,
negative decimals round to a magnitude (round(v / 10^|d|) * 10^|d|),
no decimals defaults to 2 places; trailing zeros are trimmed. -/
def formatNumberValue (value : ℚ) (decimals : Option ℤ) : String :=
  let numStr :=
    match decimals with
    | some d =>
      if 0 ≤ d then toFixedQ value d.toNat
      else toString (round (value / (10 : ℚ) ^ (-d).toNat) * (10 : ℤ) ^ (-d).toNat)
    | none => toFixedQ value 2
  trimTrailingZeros numStr

/-- XBRLGenerator.createFinancialFact: a nil or valueless item yields a
nil fact with unitRef USD; a numeric value yields a fact with the target
currency as unitRef and the formatted number as text; boolean and string
values use the pure unit; the decimals attribute is set when the item
declares decimals. -/
def createFinancialFact (item : FinancialItem) (contextId currency : String) :
    Option FactElem :=
  if item.isNil.getD false ∨ item.value = none then
    (getXBRLTagName item).map (fun tag =>
      { tag := tag, contextRef := contextId, unitRef := some "USD",
        isNil := true })
  else
    (getXBRLTagName item).bind (fun tag =>
      item.value.map (fun v =>
        let p :=
          match v with
          | .num q => (formatNumberValue q item.decimals, currency)
          | .bool b => ((if b then "true" else "false"), "pure")
          | .str s => (s, "pure")
        { tag := tag, contextRef := contextId, unitRef := some p.2,
          isNil := false,
          decimals := item.decimals.map (fun d => toString d),
          text := some p.1 }))

/-- XBRLGenerator.createFinancialFacts: per-item try/catch that skips an
item whose fact creation fails; fact creation is total here, so this is
a filterMap over the items. -/
def createFinancialFacts (items : List FinancialItem)
    (contextId currency : String) : List FactElem :=
  items.filterMap (fun item => createFinancialFact item contextId currency)

/-- XBRLGenerator.generateDocumentContext (an id referenced by the dei
facts; no context with this id is ever declared). -/
def generateDocumentContext (options : XBRLGenerationOptions) : String :=
  "Document_" ++ options.documentDate.compact

/-- XBRLGenerator.addEntityInformation: the dei facts. -/
def entityInformationFacts (options : XBRLGenerationOptions) : List FactElem :=
  (if options.companyName ≠ "" then
    [{ tag := "dei:EntityRegistrantName",
       contextRef := generateDocumentContext options, unitRef := none,
       text := some options.companyName }]
   else []) ++
  [{ tag := "dei:DocumentPeriodEndDate",
     contextRef := generateDocumentContext options, unitRef := none,
     text := some (formatDate options.documentDate) },
   { tag := "dei:DocumentFiscalYearFocus",
     contextRef := generateDocumentContext options, unitRef := none,
     text := some (toString options.documentDate.year) }]

/-- XBRLGenerator.addSchemaReferences. -/
def addSchemaReferences : TaxonomyFramework → List String
  | .usGaap => ["http://xbrl.us/us-gaap/2009-01-31/us-gaap-2009-01-31.xsd",
                "http://xbrl.sec.gov/dei/2023-01-31/dei-2023-01-31.xsd"]
  | .ifrs => ["http://xbrl.ifrs.org/taxonomy/2023-03-31/ifrs-full-2023-03-31.xsd"]
  | .other => ["http://www.xbrl.org/2003/xbrl-instance-2003-12-31.xsd"]

/-- The structural content of the generated instance document. -/
structure XbrlDoc where
  schemaRefs : List String
  contexts : List ContextElem
  units : List UnitElem
  entityFacts : List FactElem
  facts : List FactElem
deriving DecidableEq, Repr

/-- The document assembly of XBRLGenerator.generateXBRL: one context
element is imported into the root per input statement (the contextMap
deduplicates only the metadata id set, not the imported nodes), then the
unit definitions, the entity information and the per-statement facts. -/
def buildXbrlDoc (statements : List FinancialStatement)
    (options : XBRLGenerationOptions) : XbrlDoc :=
  { schemaRefs := addSchemaReferences options.taxonomyFramework
    contexts := statements.map (fun st => createContextForStatement st options)
    units := unitDefinitions options.currency
    entityFacts := entityInformationFacts options
    facts := statements.flatMap (fun st =>
      createFinancialFacts st.items (generateContextId st) options.currency) }

/-- Insertion into the JS Set of context ids: keep first occurrences in
insertion order. -/
def insertUnique (acc : List String) (s : String) : List String :=
  if acc.contains s then acc else acc ++ [s]

/-- Metadata of a generation result. -/
structure GeneratedMetadata where
  totalFacts : Nat
  frameworks : List TaxonomyFramework
  currencies : List String
  contexts : List String
  validationIssues : List String
deriving DecidableEq, Repr

/-- GeneratedXBRL (XBRLGenerator.ts): the rendered document string plus
metadata with the validation-issues list. -/
structure GeneratedXBRL where
  xbrlDocument : String
  metadata : GeneratedMetadata
deriving DecidableEq, Repr

/-- XBRLGenerator.generateXBRL with its try/catch boundary: the internal
document assembly is pure, and the XML library rendering (which is the
code that can throw inside the try) is abstracted as a fallible render
function; any such failure is converted into the validation-issues list
of a returned result, never re-raised. -/
def generateXBRL (statements : List FinancialStatement)
    (options : XBRLGenerationOptions)
    (render : XbrlDoc → Except String String) : GeneratedXBRL :=
  let doc := buildXbrlDoc statements options
  match render doc with
  | .ok rendered =>
    { xbrlDocument := rendered
      metadata :=
        { totalFacts := doc.facts.length
          frameworks := if statements.isEmpty then [] else [options.taxonomyFramework]
          currencies := [options.currency]
          contexts := statements.foldl
            (fun acc st => insertUnique acc (generateContextId st)) []
          validationIssues := [] } }
  | .error e =>
    { xbrlDocument := ""
      metadata :=
        { totalFacts := 0, frameworks := [], currencies := [], contexts := []
          validationIssues := ["Generation failed: " ++ e] } }

/-! ## JobQueueService (src/lib/services/JobQueueService.ts) -/

/-- Job status enumeration. -/
inductive JobStatus
  | pending
  | processing
  | completed
  | failed
deriving DecidableEq, Repr

/-- The job fields the retry policy reads and writes. -/
structure Job where
  status : JobStatus
  progress : ℤ
  retryCount : Nat
  errorMessage : Option String
deriving DecidableEq, Repr

/-- JobQueueService.MAX_RETRIES. -/
def MAX_RETRIES : Nat := 3

/-- JobQueueService.RETRY_DELAY_MS. -/
def RETRY_DELAY_MS : Nat := 5000

/-- JobQueueService.markJobAsFailed composed with scheduleRetry: below
the retry ceiling the job goes back to pending with progress 0, an
incremented retry count and a retrying message, and a retry is scheduled
after RETRY_DELAY_MS times the new retry count (returned as the second
component); at the ceiling the job is marked permanently failed with the
causing error message, and no retry is scheduled. -/
def markJobAsFailed (job : Job) (errorMessage : String) : Job × Option Nat :=
  if job.retryCount < MAX_RETRIES then
    let rc := job.retryCount + 1
    let rmsg := "Retrying (attempt " ++ toString rc ++ "/" ++
      toString MAX_RETRIES ++ ")"
    ({ job with
        status := .pending
        retryCount := rc
        progress := 0
        errorMessage := some rmsg },
      some (RETRY_DELAY_MS * rc))
  else
    ({ job with status := .failed, errorMessage := some errorMessage }, none)

/-- Iterated processing failures: the job state after n failed attempts. -/
def applyFailures (msg : String) : Nat → Job → Job
  | 0, job => job
  | n + 1, job => applyFailures msg n (markJobAsFailed job msg).1

/-- Retry policy as the amended claim states it: below the ceiling of 3
the job transitions back to pending with progress reset to 0 and the
retry count incremented by one, and the retry is scheduled after the
base delay of 5000 ms times the attempt number; at the ceiling the job
is marked permanently failed with the causing error message retained and
no retry is scheduled. -/
def specRetryPolicy (job : Job) (msg : String) : Job × Option Nat :=
  if job.retryCount < 3 then
    ({ status := .pending, progress := 0, retryCount := job.retryCount + 1,
        errorMessage := some ("Retrying (attempt " ++
          toString (job.retryCount + 1) ++ "/" ++ "3" ++ ")") },
      some (5000 * (job.retryCount + 1)))
  else
    ({ job with status := .failed, errorMessage := some msg }, none)

/-! ## Parser boundary (BaseParser.ts, CsvParser.ts, XbrlParser) -/

/-- Severity of a ProcessingError entry. -/
inductive ErrorSeverity
  | critical
  | error
  | warning
deriving DecidableEq, Repr

/-- Severity of a ProcessingWarning entry. -/
inductive WarnSeverity
  | low
  | medium
  | high
deriving DecidableEq, Repr

/-- ProcessingError (parsers/types.ts). -/
structure ProcessingError where
  code : String
  message : String
  severity : ErrorSeverity
  source : String
deriving DecidableEq, Repr

/-- ProcessingWarning (parsers/types.ts). -/
structure ProcessingWarning where
  code : String
  message : String
  severity : WarnSeverity
  source : String
deriving DecidableEq, Repr

/-- The warnings and errors of ProcessingMetadata. -/
structure ProcessingMetadata where
  warnings : List ProcessingWarning
  errors : List ProcessingError
deriving DecidableEq, Repr

/-- DocumentInfo (parsers/types.ts). -/
structure DocumentInfo where
  fileName : String
  fileType : String
  originalName : String
  fileSize : Nat
  currency : String
  reportType : String
  companyName : Option String := none
deriving DecidableEq, Repr

/-- FinancialData (parsers/types.ts), the canonical report every parser
returns. -/
structure FinancialData where
  documentInfo : DocumentInfo
  financialStatements : List FinancialStatement
  metadata : ProcessingMetadata
deriving DecidableEq, Repr

/-- Outcome of Papa.parse: header-keyed rows plus per-row error
messages. -/
structure PapaResult where
  data : List (List (String × String))
  errors : List String
deriving Repr

/-- Outcome of CsvParser.convertToFinancialData. -/
structure CsvConverted where
  statements : List FinancialStatement
  currency : String
  reportType : String
deriving Repr

/-- The catch branch of CsvParser.parse: zero statements and a critical
PARSE_FAILED entry appended to the errors accumulated so far. -/
def csvFailureData (fileName : String) (fileSize : Nat)
    (errorsSoFar : List ProcessingError) (warnings : List ProcessingWarning)
    (msg : String) : FinancialData :=
  { documentInfo :=
      { fileName := fileName, fileType := "csv", originalName := fileName,
        fileSize := fileSize, currency := "USD", reportType := "unknown" }
    financialStatements := []
    metadata :=
      { warnings := warnings
        errors := errorsSoFar ++
          [{ code := "PARSE_FAILED",
             message := "Failed to parse CSV file: " ++ msg,
             severity := .critical, source := "CsvParser" }] } }

/-- CsvParser.parse with its try/catch boundary. The fallible interior
steps are the Papa.parse promise and convertToFinancialData (which also
accumulates warnings); every failure is converted into a returned report
with zero statements and a critical error entry, never re-raised. Papa
row errors are recorded as error-severity entries while parsing
continues. -/
def csvParse (papa : Except String PapaResult)
    (convert : List (List (String × String)) →
      List ProcessingWarning × Except String CsvConverted)
    (fileName : String) (fileSize : Nat) : FinancialData :=
  match papa with
  | .error e => csvFailureData fileName fileSize [] [] e
  | .ok pr =>
    let rowErrors : List ProcessingError := pr.errors.map (fun m =>
      { code := "CSV_PARSE_ERROR", message := m, severity := .error,
        source := "CsvParser" })
    if pr.data.length = 0 then
      csvFailureData fileName fileSize rowErrors []
        "CSV file is empty or contains no valid data"
    else
      match convert pr.data with
      | (ws, .error e) => csvFailureData fileName fileSize rowErrors ws e
      | (ws, .ok conv) =>
        { documentInfo :=
            { fileName := fileName, fileType := "csv",
              originalName := fileName, fileSize := fileSize,
              currency := jsOrDefault (some conv.currency) "USD",
              reportType := jsOrDefault (some conv.reportType) "unknown" }
          financialStatements := conv.statements
          metadata := { warnings := ws, errors := rowErrors } }

/-- Outcome of XbrlParser.parseXBRLDocument. -/
structure XbrlConverted where
  statements : List FinancialStatement
  currency : String
  reportType : String
  companyName : Option String
deriving Repr

/-- The catch branch of XbrlParser.parse. -/
def xbrlFailureData (fileName : String) (fileSize : Nat)
    (warnings : List ProcessingWarning) (msg : String) : FinancialData :=
  { documentInfo :=
      { fileName := fileName, fileType := "xbrl", originalName := fileName,
        fileSize := fileSize, currency := "USD", reportType := "unknown" }
    financialStatements := []
    metadata :=
      { warnings := warnings
        errors :=
          [{ code := "XBRL_PARSE_ERROR"
             message := "Failed to parse XBRL file: " ++ msg
             severity := .critical
             source := "XbrlParser" }] } }

/-- XbrlParser.parse with its try/catch boundary: parseXBRLDocument may
fail after accumulating warnings; failure is converted into a returned
report with zero statements and a critical entry, success passes the
best-effort statements and warnings through. -/
def xbrlParse (core : List ProcessingWarning × Except String XbrlConverted)
    (fileName : String) (fileSize : Nat) : FinancialData :=
  match core with
  | (ws, .error e) => xbrlFailureData fileName fileSize ws e
  | (ws, .ok conv) =>
    { documentInfo :=
        { fileName := fileName, fileType := "xbrl", originalName := fileName,
          fileSize := fileSize,
          currency := jsOrDefault (some conv.currency) "USD",
          reportType := jsOrDefault (some conv.reportType) "unknown",
          companyName := conv.companyName }
      financialStatements := conv.statements
      metadata := { warnings := ws, errors := [] } }

/-! ## BaseParser.sanitizeValue and CsvParser.createFinancialItem -/

/-- Return type of sanitizeValue: number, string, boolean or null. -/
inductive Sanitized
  | num (q : ℚ)
  | str (s : String)
  | bool (b : Bool)
  | null
deriving DecidableEq, Repr

/-- The characters removed by the cleanup replace(/[$,()%\s]/g, '') of
sanitizeValue. -/
def isStrippedChar (c : Char) : Bool :=
  c == '$' || c == ',' || c == '(' || c == ')' || c == '%' || c.isWhitespace

/-- Digit accumulation for the parseFloat model. -/
def digitsToNat (ds : List Char) : Nat :=
  ds.foldl (fun acc c => acc * 10 + (c.toNat - '0'.toNat)) 0

/-- Model of JS parseFloat: optional sign, then integer and/or fraction
digits, then an optional exponent; none when no digits are found (NaN).
The Infinity literal is not modelled; no input here produces it. -/
def parseFloatQ (s : String) : Option ℚ :=
  let l := s.data.dropWhile Char.isWhitespace
  let sign : ℚ := match l with
    | '-' :: _ => -1
    | _ => 1
  let l := match l with
    | '-' :: t => t
    | '+' :: t => t
    | _ => l
  let intPart := l.takeWhile Char.isDigit
  let rest := l.dropWhile Char.isDigit
  let fracPart := match rest with
    | '.' :: t => t.takeWhile Char.isDigit
    | _ => []
  let rest2 := match rest with
    | '.' :: t => t.dropWhile Char.isDigit
    | _ => rest
  if intPart.isEmpty ∧ fracPart.isEmpty then none
  else
    let mantissa : ℚ := (digitsToNat intPart : ℚ) +
      (digitsToNat fracPart : ℚ) / (10 : ℚ) ^ fracPart.length
    let exponent : ℤ :=
      match rest2 with
      | c :: t =>
        if c == 'e' || c == 'E' then
          let esign : ℤ := match t with
            | '-' :: _ => -1
            | _ => 1
          let t2 := match t with
            | '-' :: u => u
            | '+' :: u => u
            | _ => t
          let eds := t2.takeWhile Char.isDigit
          if eds.isEmpty then 0 else esign * (digitsToNat eds : ℤ)
        else 0
      | [] => 0
    some (sign * mantissa * (10 : ℚ) ^ exponent)

/-- BaseParser.sanitizeValue: null, undefined and the empty string yield
null; strings are cleaned of currency and formatting characters, then
tested for the parenthesised-negative form, then parsed as a number,
then coerced from boolean literals, otherwise kept as the cleaned
string; numbers and booleans pass through. The parenthesis test can
never succeed because the cleanup already removed the parentheses — that
branch is kept verbatim from the source. -/
def sanitizeValue (value : Option JsValue) : Sanitized :=
  match value with
  | none => .null
  | some (.num q) => .num q
  | some (.bool b) => .bool b
  | some (.str s) =>
    if s = "" then .null
    else
      let cleanValue := String.mk (s.data.filter (fun c => !isStrippedChar c))
      if charsPre ['('] cleanValue.data ∧ cleanValue.data.getLast? = some ')' then
        match parseFloatQ (String.mk (cleanValue.data.drop 1).dropLast) with
        | some q => .num (-q)
        | none => .str s
      else
        match parseFloatQ cleanValue with
        | some q => .num q
        | none =>
          if lowerChars cleanValue.data = "true".data then .bool true
          else if lowerChars cleanValue.data = "false".data then .bool false
          else .str cleanValue

/-- A sanitised value as an item value; null becomes none. -/
def sanitizedToJs : Sanitized → Option JsValue
  | .num q => some (.num q)
  | .str s => some (.str s)
  | .bool b => some (.bool b)
  | .null => none

/-- BaseParser.generateSourceReference for a concept and row (the CSV
parser passes no column). -/
def generateSourceReference (identifier : String) (row : Nat) : String :=
  identifier ++ "_row:" ++ toString row

/-- CsvParser.createFinancialItem: a null sanitised value yields no item
(the raw value is dropped); otherwise an item with the trimmed concept,
the sanitised value, unit USD, a source reference and confidence 80. -/
def createFinancialItem (concept : String) (value : Option JsValue)
    (row : Nat) : Option FinancialItem :=
  match sanitizedToJs (sanitizeValue value) with
  | none => none
  | some v =>
    some { concept := trimChars concept, value := some v, unit := "USD",
           sourceReference := some (generateSourceReference concept row),
           confidence := some 80 }

/-! ## Concrete fixtures used by the theorems -/

/-- A numeric revenue line item. -/
def revenueItem : FinancialItem :=
  { concept := "Revenue", value := some (.num 1000), unit := "USD" }

/-- A single income statement for fiscal year 2023. -/
def euroStatement : FinancialStatement :=
  { type := .income_statement, periodEndDate := ⟨2023, 12, 31⟩,
    fiscalYear := 2023, items := [revenueItem] }

/-- Generation options targeting currency EUR. -/
def euroOptions : XBRLGenerationOptions :=
  { taxonomyFramework := .usGaap, currency := "EUR",
    documentDate := ⟨2024, 1, 15⟩, companyName := "ACME" }

/-- The document generated from the single income statement with target
currency EUR. -/
def euroDoc : XbrlDoc := buildXbrlDoc [euroStatement] euroOptions

/-- An income statement with no items, used twice to make two statements
share the (period, type, fiscal year, fiscal quarter) tuple. -/
def dupStatement : FinancialStatement :=
  { type := .income_statement, periodEndDate := ⟨2023, 12, 31⟩,
    fiscalYear := 2023, items := [] }

/-- Generation options targeting currency USD. -/
def usdOptions : XBRLGenerationOptions :=
  { taxonomyFramework := .usGaap, currency := "USD",
    documentDate := ⟨2024, 1, 15⟩, companyName := "ACME" }

/-- The document generated from two statements sharing the same context
tuple. -/
def dupDoc : XbrlDoc := buildXbrlDoc [dupStatement, dupStatement] usdOptions

/-- A job that has never failed, in mid-processing. -/
def freshJob : Job :=
  { status := .processing, progress := 30, retryCount := 0,
    errorMessage := none }

/-- A taxonomy row for Total Assets. -/
def taxAssetsRow : TaxonomyRow :=
  { tid := 1, concept := "Total Assets", xbrlTag := "us-gaap:Assets",
    description := "Assets total", synonyms := [], sector := "all",
    reportType := "balance_sheet", taxonomyFramework := .usGaap }

/-- A database with one learned mapping of confidence 97 (method manual)
for the label Custom Asset Label. -/
def learnedDb : TaxonomyDb :=
  { taxonomies := [taxAssetsRow],
    mappings :=
      [{ mid := 1
         sourceField := "Custom Asset Label"
         taxonomyId := 1
         confidence := 97
         mappingMethod := .manual
         isActive := true }] }

/-- The line item whose label hits the learned mapping. -/
def customItem : FinancialItem :=
  { concept := "Custom Asset Label", value := some (.num 500), unit := "USD" }

/-- A database with no learned mappings at all. -/
def cleanDb : TaxonomyDb := { taxonomies := [taxAssetsRow], mappings := [] }

/-- A line item whose label equals the taxonomy concept Total Assets. -/
def assetsItem : FinancialItem :=
  { concept := "Total Assets", value := some (.num 5000000), unit := "USD" }

/-- The mapping result of the direct taxonomy-table hit for Total
Assets. -/
def assetsHit : MappingResult :=
  { xbrlTag := "us-gaap:Assets", taxonomyFramework := .usGaap,
    confidence := 100, mappingMethod := .exact_match,
    taxonomyConcept := "Total Assets", description := some "Assets total" }

/-- A taxonomy row whose concept the fuzzy shortlist will match. -/
def revenueRow : TaxonomyRow :=
  { tid := 2, concept := "Revenue", xbrlTag := "us-gaap:Revenues",
    description := "", synonyms := [], sector := "all",
    reportType := "income_statement", taxonomyFramework := .usGaap }

/-- A database for exercising the fuzzy stage. -/
def fuzzyDb : TaxonomyDb := { taxonomies := [revenueRow], mappings := [] }

/-- The fuzzy result of matching the label Revenue against fuzzyDb. -/
def fuzzyHit : MappingResult :=
  { xbrlTag := "us-gaap:Revenues", taxonomyFramework := .usGaap,
    confidence := 100, mappingMethod := .fuzzy_match,
    taxonomyConcept := "Revenue", description := some "" }

/-! ## Theorems -/

/-- Claim C1 (code bug): generating from a single income statement with
target currency EUR declares exactly one monetary unit measuring
iso4217:EUR, but its id is the hard-coded literal USD while the numeric
fact carries unitRef EUR, which matches no declared unit id; the dei
entity facts likewise reference a Document context id that is never
declared. The fact contextRef of the financial fact does match its
declared context. -/
theorem C1_unit_reference_mismatch :
    (euroDoc.units.map (fun u => u.id)) = ["USD", "pure"] ∧
    (euroDoc.units.map (fun u => u.measure)) = ["iso4217:EUR", "xbrli:pure"] ∧
    (euroDoc.facts.map (fun f => f.unitRef)) = [some "EUR"] ∧
    "EUR" ∉ euroDoc.units.map (fun u => u.id) ∧
    (euroDoc.facts.map (fun f => f.contextRef)) = [generateContextId euroStatement] ∧
    (euroDoc.contexts.map (fun c => c.id)) = [generateContextId euroStatement] ∧
    (euroDoc.entityFacts.map (fun f => f.contextRef)) =
      ["Document_20240115", "Document_20240115", "Document_20240115"] ∧
    "Document_20240115" ∉ euroDoc.contexts.map (fun c => c.id) := by
  decide

/-- Claim C3 (code bug): two input statements sharing the same (period,
statement kind, fiscal year, fiscal quarter) tuple produce two context
elements with the same id in the generated document, not one; both are
duration contexts whose start is one year before the period end plus one
day, confirming the period-kind half of the claim at this input. -/
theorem C3_duplicate_context_elements :
    dupDoc.contexts.length = 2 ∧
    (dupDoc.contexts.map (fun c => c.id)).count (generateContextId dupStatement) = 2 ∧
    (dupDoc.contexts.map (fun c => c.period)) =
      [.duration "2023-01-01" "2023-12-31",
       .duration "2023-01-01" "2023-12-31"] := by
  decide

/-- Claim C4 (counterexample): a job that fails three times is back in
pending with retry count 3, not in terminal failed as the claim states —
each of the first three failures is below the ceiling, so each grants a
retry. -/
theorem C4_counterexample :
    (applyFailures "step failed" 3 freshJob).status = .pending ∧
    (applyFailures "step failed" 3 freshJob).status ≠ .failed ∧
    (applyFailures "step failed" 3 freshJob).retryCount = 3 := by
  decide

/-- Claim C4 (amended): on failure below the retry ceiling of 3 the job
transitions back to pending with progress 0 and retry count incremented
by one and the retry is scheduled after the base delay times the attempt
number; at the ceiling it is marked permanently failed with the causing
error message retained; consequently a job that fails four times (three
granted retries) reaches terminal failed, and a further failure schedules
no retry. -/
theorem C4_amended_retry_policy (job : Job) (msg : String) :
    markJobAsFailed job msg = specRetryPolicy job msg ∧
    (applyFailures "step failed" 4 freshJob).status = .failed ∧
    (applyFailures "step failed" 4 freshJob).errorMessage = some "step failed" ∧
    (applyFailures "step failed" 4 freshJob).retryCount = 3 ∧
    (markJobAsFailed (applyFailures "step failed" 4 freshJob) "again").2 = none := by
  refine ⟨?_, by decide, by decide, by decide, by decide⟩
  unfold markJobAsFailed specRetryPolicy MAX_RETRIES RETRY_DELAY_MS
  rfl

/-- Claim C6 (code bug): the cleanup replace of sanitizeValue strips the
parentheses before the parenthesized-negative test runs, so the string
(500) sanitizes to the positive number 500 instead of -500; null and
empty inputs yield null and produce no item, and boolean-like strings
coerce to booleans. -/
theorem C6_parenthesized_negative :
    sanitizeValue (some (.str "(500)")) = .num 500 ∧
    (Sanitized.num 500 ≠ Sanitized.num (-500)) ∧
    sanitizeValue none = .null ∧
    sanitizeValue (some (.str "")) = .null ∧
    sanitizeValue (some (.str "true")) = .bool true ∧
    createFinancialItem "Cash" none 0 = none := by
  refine ⟨?_, by decide, rfl, rfl, rfl, rfl⟩
  have h : sanitizeValue (some (.str "(500)")) =
      .num ((1 : ℚ) * (((500 : ℕ) : ℚ) + ((0 : ℕ) : ℚ) / (10 : ℚ) ^ (0 : ℕ)) *
        (10 : ℚ) ^ (0 : ℤ)) := rfl
  rw [h]
  norm_num

/-- Claim C2 (counterexample): with a learned mapping of stored
confidence 97 for the label, the exact-match stage accepts (97 is at
least the stage threshold 95) and the engine returns a match with method
exact_match but confidence 97, not 100 as the claim states. -/
theorem C2_counterexample :
    mapFinancialItem learnedDb customItem none none =
      some { xbrlTag := "us-gaap:Assets", taxonomyFramework := .usGaap,
             confidence := 97, mappingMethod := .exact_match,
             synonyms := some [] } ∧
    (97 : ℤ) ≠ 100 := by
  decide

/-- Claim C2 (amended): whenever the matching engine returns a match
produced by the exact-match stage, that match has mapping method
exact_match and the stage result confidence, which is at least 95; and
when no active learned mapping exists for the label, so the stage result
is a direct taxonomy-table hit, the confidence is exactly 100. -/
theorem C2_amended_exact_stage (db : TaxonomyDb) (item : FinancialItem)
    (sctx rctx : Option String) (e : MappingResult)
    (he : findExactMapping db item.concept = some e)
    (h95 : 95 ≤ e.confidence) :
    mapFinancialItem db item sctx rctx =
      some { xbrlTag := e.xbrlTag, taxonomyFramework := e.taxonomyFramework,
             confidence := e.confidence, mappingMethod := .exact_match,
             synonyms := some [] } ∧
    ((∀ m ∈ db.mappings, ¬(m.sourceField = item.concept ∧ m.isActive)) →
      e.confidence = 100 ∧ e.mappingMethod = .exact_match) := by
  constructor
  · simp only [mapFinancialItem, he, acceptAtLeast]
    rw [if_pos h95]
  · intro hno
    have hlearned : findLearnedMapping db item.concept = none := by
      unfold findLearnedMapping
      have hj : db.mappings.filterMap (fun m =>
          if m.sourceField = item.concept ∧ m.isActive then
            (db.taxonomies.find? (fun t => t.tid == m.taxonomyId)).map
              (fun t => (m, t))
          else none) = [] := by
        rw [List.filterMap_eq_nil_iff]
        intro m hm
        rw [if_neg (hno m hm)]
      rw [hj]
      rfl
    unfold findExactMapping at he
    rw [hlearned] at he
    unfold findTaxonomyHit at he
    rcases hfind : db.taxonomies.find?
        (fun t => t.concept == item.concept || t.xbrlTag == item.concept) with _ | t
    · rw [hfind] at he
      exact absurd he (by simp)
    · rw [hfind] at he
      have hrec := Option.some.inj he
      constructor
      · rw [← hrec]
      · rw [← hrec]

/-- Claim C2 (witness): the amended theorem applied to the database with
no learned mappings and the Total Assets item; the direct taxonomy-table
hit yields confidence 100 with method exact_match. -/
theorem C2_amended_witness :
    mapFinancialItem cleanDb assetsItem none none =
      some { xbrlTag := "us-gaap:Assets", taxonomyFramework := .usGaap,
             confidence := 100, mappingMethod := .exact_match,
             synonyms := some [] } ∧
    assetsHit.confidence = 100 ∧ assetsHit.mappingMethod = .exact_match := by
  have h := C2_amended_exact_stage cleanDb assetsItem none none assetsHit
    (by decide) (by decide)
  exact ⟨h.1, h.2 (by simp [cleanDb])⟩

/-- Claim C9: document generation never throws: for every statement list,
options and render outcome it returns a result; an internal failure is
converted into the metadata validation-issues list with an empty document
string, and a successful render yields the rendered document with no
issues. -/
theorem C9_generation_boundary (statements : List FinancialStatement)
    (options : XBRLGenerationOptions)
    (render : XbrlDoc → Except String String) :
    (∀ e, render (buildXbrlDoc statements options) = .error e →
      generateXBRL statements options render =
        { xbrlDocument := ""
          metadata :=
            { totalFacts := 0
              frameworks := []
              currencies := []
              contexts := []
              validationIssues := ["Generation failed: " ++ e] } }) ∧
    (∀ s, render (buildXbrlDoc statements options) = .ok s →
      (generateXBRL statements options render).xbrlDocument = s ∧
      (generateXBRL statements options render).metadata.validationIssues = []) := by
  constructor
  · intro e he
    simp only [generateXBRL, he]
  · intro s hs
    simp [generateXBRL, hs]

/-- Claim C9 (witness): the boundary theorem applied to a failing render
and to a succeeding render at concrete inputs. -/
theorem C9_generation_boundary_witness :
    generateXBRL [] usdOptions (fun _ => .error "boom") =
      { xbrlDocument := ""
        metadata :=
          { totalFacts := 0
            frameworks := []
            currencies := []
            contexts := []
            validationIssues := ["Generation failed: boom"] } } ∧
    (generateXBRL [] usdOptions (fun _ => .ok "doc")).xbrlDocument = "doc" := by
  constructor
  · exact (C9_generation_boundary [] usdOptions (fun _ => .error "boom")).1 "boom" rfl
  · exact ((C9_generation_boundary [] usdOptions (fun _ => .ok "doc")).2 "doc" rfl).1

/-- Batching in chunks of 50 and concatenating the per-batch maps is the
plain map over the whole list. -/
theorem chunked50_flatMap_map {α : Type} (f : FinancialItem → α) :
    ∀ l : List FinancialItem,
      (chunked50 l).flatMap (fun b => b.map f) = l.map f := by
  intro l
  induction l using chunked50.induct with
  | case1 => simp [chunked50]
  | case2 x xs ih =>
    rw [chunked50]
    simp only [List.flatMap_cons, List.map_cons, ih, List.cons_append]
    rw [← List.map_append, List.take_append_drop]

/-- Claim C10: the batched matching operation returns the per-item map
over the input list â the same length, with the i-th result pairing the
i-th input item with its match; batching in groups of 50 drops and
duplicates nothing and preserves order. -/
theorem C10_batching_preserves_items (db : TaxonomyDb)
    (items : List FinancialItem) (sctx rctx : Option String) :
    mapFinancialItems db items sctx rctx =
      items.map (fun item => (item, mapFinancialItem db item sctx rctx)) ∧
    (mapFinancialItems db items sctx rctx).length = items.length := by
  have h : mapFinancialItems db items sctx rctx =
      items.map (fun item => (item, mapFinancialItem db item sctx rctx)) :=
    chunked50_flatMap_map _ items
  exact ⟨h, by rw [h, List.length_map]⟩

/-- Claim C8: a parser's parse never throws past its boundary: for every
outcome of the fallible interior, the CSV and XBRL parsers return either
a report with zero statements and a critical-severity error entry, or a
success report carrying the converted best-effort statements with the
accumulated warnings passed through. -/
theorem C8_parse_boundary (papa : Except String PapaResult)
    (convert : List (List (String × String)) →
      List ProcessingWarning × Except String CsvConverted)
    (fn : String) (sz : Nat)
    (core : List ProcessingWarning × Except String XbrlConverted) :
    (((csvParse papa convert fn sz).financialStatements = [] ∧
      (csvParse papa convert fn sz).metadata.errors.any
        (fun e => e.severity == .critical)) ∨
     (∃ pr ws conv, papa = .ok pr ∧ convert pr.data = (ws, .ok conv) ∧
       (csvParse papa convert fn sz).financialStatements = conv.statements ∧
       (csvParse papa convert fn sz).metadata.warnings = ws)) ∧
    (((xbrlParse core fn sz).financialStatements = [] ∧
      (xbrlParse core fn sz).metadata.errors.any
        (fun e => e.severity == .critical)) ∨
     (∃ ws conv, core = (ws, .ok conv) ∧
       (xbrlParse core fn sz).financialStatements = conv.statements ∧
       (xbrlParse core fn sz).metadata.warnings = ws)) := by
  constructor
  · match papa with
    | .error e =>
      left
      simp [csvParse, csvFailureData]
    | .ok pr =>
      by_cases hlen : pr.data.length = 0
      · left
        simp [csvParse, hlen, csvFailureData]
      · rcases hc : convert pr.data with ⟨ws, res⟩
        match res with
        | .error e =>
          left
          simp [csvParse, hlen, hc, csvFailureData]
        | .ok conv =>
          right
          refine ⟨pr, ws, conv, rfl, hc, ?_, ?_⟩ <;>
            simp [csvParse, hlen, hc]
  · rcases core with ⟨ws, res⟩
    match res with
    | .error e =>
      left
      simp [xbrlParse, xbrlFailureData]
    | .ok conv =>
      right
      exact ⟨ws, conv, rfl, rfl, rfl⟩

/-- Shifting the first fold step of the best-candidate selection: folding
from pickBetter x y is choosing x when it already beats the fold from y,
because pickBetter keeps the earlier element on ties. -/
theorem foldl_pickBetter_shift (ys : List MappingResult) :
    ∀ x y : MappingResult,
      ys.foldl pickBetter (pickBetter x y) =
        if (ys.foldl pickBetter y).confidence ≤ x.confidence then x
        else ys.foldl pickBetter y := by
  induction ys with
  | nil =>
    intro x y
    simp only [List.foldl_nil, pickBetter]
    by_cases h : x.confidence < y.confidence
    · rw [if_pos h, if_neg (by omega)]
    · rw [if_neg h, if_pos (by omega)]
  | cons z zs ih =>
    intro x y
    simp only [List.foldl_cons]
    rw [ih (pickBetter x y) z, ih y z]
    by_cases hxy : x.confidence < y.confidence
    · rw [pickBetter, if_pos hxy]
      by_cases hfy : (zs.foldl pickBetter z).confidence ≤ y.confidence
      · rw [if_pos hfy, if_neg (show ¬ y.confidence ≤ x.confidence by omega)]
      · rw [if_neg hfy,
          if_neg (show ¬ (zs.foldl pickBetter z).confidence ≤ x.confidence by omega)]
    · rw [pickBetter, if_neg hxy]
      by_cases hfy : (zs.foldl pickBetter z).confidence ≤ y.confidence
      · rw [if_pos hfy,
          if_pos (show (zs.foldl pickBetter z).confidence ≤ x.confidence by omega),
          if_pos (show y.confidence ≤ x.confidence by omega)]
      · rw [if_neg hfy]

/-- The foldl-based selectBestMatch equals the recursive
highest-confidence selection of the specification. -/
theorem selectBestMatch_eq_spec :
    ∀ l : List MappingResult, selectBestMatch l = specHighestConfidence l := by
  intro l
  induction l with
  | nil => rfl
  | cons x xs ih =>
    cases xs with
    | nil => rfl
    | cons y ys =>
      have h1 : specHighestConfidence (y :: ys) = some (ys.foldl pickBetter y) := by
        rw [← ih]
        rfl
      conv_rhs => rw [specHighestConfidence, h1]
      show some ((y :: ys).foldl pickBetter x) =
        some (if (ys.foldl pickBetter y).confidence ≤ x.confidence then x
          else ys.foldl pickBetter y)
      rw [List.foldl_cons, foldl_pickBetter_shift ys x y]

/-- Claim C5: the matching engine returns the exact-stage result only if
its confidence is at least 95, otherwise the fuzzy-stage result only if
at least 80, otherwise the assisted-stage result only if at least 70,
otherwise the highest-confidence candidate among all stages if at least
60, otherwise none (requires manual mapping) â a returned value, not an
error. -/
theorem C5_staged_selection (db : TaxonomyDb) (item : FinancialItem)
    (sctx rctx : Option String) :
    mapFinancialItem db item sctx rctx = specStagedSelection db item sctx rctx := by
  simp only [mapFinancialItem, specStagedSelection, selectBestMatch_eq_spec]

/-- Unfolding one inner pass of the word-overlap fold: the accumulator
grows by 20 per equal word pair and 10 per containment pair. -/
theorem foldl_overlap_inner (sw : List Char) (cws : List (List Char)) :
    ∀ acc : ℤ,
      cws.foldl (fun acc2 cw =>
        if sw = cw then acc2 + 20
        else if charsHas cw sw || charsHas sw cw then acc2 + 10
        else acc2) acc =
      acc + 20 * (cws.countP (fun cw => decide (sw = cw)) : ℤ) +
        10 * (cws.countP (fun cw =>
          decide (sw ≠ cw) && (charsHas cw sw || charsHas sw cw)) : ℤ) := by
  induction cws with
  | nil =>
    intro acc
    simp
  | cons cw rest ih =>
    intro acc
    rw [List.foldl_cons, List.countP_cons, List.countP_cons]
    by_cases h : sw = cw
    · rw [if_pos h, ih]
      simp only [h]
      norm_num
      ring
    · rw [if_neg h]
      by_cases h2 : (charsHas cw sw || charsHas sw cw) = true
      · rw [if_pos h2, ih]
        simp only [h, h2]
        norm_num [h]
        ring
      · rw [if_neg h2, ih]
        simp only [h, h2]
        norm_num [h, h2]
        try push_cast
        try ring

/-- The nested word-overlap fold of calculateFuzzyScore counts 20 points
per exact pair and 10 points per containment pair over the word-pair
list of the specification. -/
theorem overlapScore_eq (sws cws : List (List Char)) :
    overlapScore sws cws =
      20 * (((sws.flatMap (fun sw => cws.map (fun cw => (sw, cw)))).countP
        (fun p => decide (p.1 = p.2))) : ℤ) +
      10 * (((sws.flatMap (fun sw => cws.map (fun cw => (sw, cw)))).countP
        (fun p => decide (p.1 ≠ p.2) &&
          (charsHas p.2 p.1 || charsHas p.1 p.2))) : ℤ) := by
  suffices h : ∀ acc : ℤ, sws.foldl (fun acc sw =>
      cws.foldl (fun acc2 cw =>
        if sw = cw then acc2 + 20
        else if charsHas cw sw || charsHas sw cw then acc2 + 10
        else acc2) acc) acc =
      acc +
      20 * (((sws.flatMap (fun sw => cws.map (fun cw => (sw, cw)))).countP
        (fun p => decide (p.1 = p.2))) : ℤ) +
      10 * (((sws.flatMap (fun sw => cws.map (fun cw => (sw, cw)))).countP
        (fun p => decide (p.1 ≠ p.2) &&
          (charsHas p.2 p.1 || charsHas p.1 p.2))) : ℤ) by
    have h0 := h 0
    rw [zero_add] at h0
    exact h0
  induction sws with
  | nil =>
    intro acc
    simp
  | cons sw rest ih =>
    intro acc
    rw [List.foldl_cons, foldl_overlap_inner sw cws acc, ih]
    rw [List.flatMap_cons, List.countP_append, List.countP_append,
      List.countP_map, List.countP_map]
    simp only [Function.comp_def]
    push_cast
    ring

/-- Clamping before rounding as the code does it equals rounding and then
clamping to [0, 100] as the specification states it. -/
theorem round_clamp (x : ℚ) :
    min 100 (round (max 0 x)) = max 0 (min 100 (round x)) := by
  rcases le_or_lt x 0 with hx | hx
  · have hr : round x ≤ 0 := by
      rw [round_eq, show (0 : ℤ) = ⌊(0 : ℚ) + 1 / 2⌋ by norm_num]
      exact Int.floor_le_floor (by linarith)
    rw [max_eq_left hx, round_zero]
    omega
  · have hr : 0 ≤ round x := by
      rw [round_eq, show (0 : ℤ) = ⌊(0 : ℚ) + 1 / 2⌋ by norm_num]
      exact Int.floor_le_floor (by linarith)
    rw [max_eq_right hx.le]
    omega

/-- The fuzzy score never exceeds 100. -/
theorem calculateFuzzyScore_le_100 (s c : String) (syns : List String) :
    calculateFuzzyScore s c syns ≤ 100 := by
  unfold calculateFuzzyScore
  dsimp only
  split_ifs
  · omega
  · omega
  · exact min_le_left 100 _

/-- The head of the stable descending sort is one of the scored
candidates. -/
theorem pickBest_mem :
    ∀ (xs : List (TaxonomyRow × ℤ)) (x), pickBest x xs ∈ x :: xs := by
  intro xs
  induction xs with
  | nil =>
    intro x
    simp [pickBest]
  | cons y ys ih =>
    intro x
    have hdef : pickBest x (y :: ys) =
        pickBest (if x.2 < y.2 then y else x) ys := rfl
    rw [hdef]
    rcases List.mem_cons.mp (ih (if x.2 < y.2 then y else x)) with h1 | h1
    · rw [h1]
      split_ifs <;> simp
    · simp [List.mem_cons, h1]

/-- Claim C7: the fuzzy score equals the specification formula â 100 on
exact case-insensitive equality, 95 on a synonym hit, otherwise 20 points
per exact word-pair overlap plus 10 per containment pair minus the
length-difference penalty 20 * |lenA - lenB| / max(lenA, lenB), clamped
to [0, 100] â and an accepted fuzzy match has confidence between 80 and
100. -/
theorem C7_fuzzy_formula :
    (∀ (s c : String) (syns : List String),
      calculateFuzzyScore s c syns = specFuzzyScore s c syns) ∧
    (∀ (db : TaxonomyDb) (concept : String) (sctx rctx : Option String)
      (r : MappingResult),
      findFuzzyMatch db concept sctx rctx = some r →
        80 ≤ r.confidence ∧ r.confidence ≤ 100) := by
  constructor
  · intro s c syns
    by_cases h1 : lowerChars s.data = lowerChars c.data
    · simp [calculateFuzzyScore, specFuzzyScore, h1]
    · by_cases h2 :
        (syns.any (fun syn => lowerChars s.data = lowerChars syn.data)) = true
      · simp [calculateFuzzyScore, specFuzzyScore, h1, h2]
      · simp only [calculateFuzzyScore, specFuzzyScore, if_neg h1, if_neg h2]
        rw [overlapScore_eq]
        have hpen : max 0
            (|(((lowerChars s.data).length : ℚ)) - ((lowerChars c.data).length : ℚ)| /
              max ((lowerChars s.data).length : ℚ) ((lowerChars c.data).length : ℚ) * 20) =
            20 * |(((lowerChars s.data).length : ℚ)) - ((lowerChars c.data).length : ℚ)| /
              max ((lowerChars s.data).length : ℚ) ((lowerChars c.data).length : ℚ) := by
          rw [max_eq_right]
          · ring
          · apply mul_nonneg
            · apply div_nonneg (abs_nonneg _)
              exact le_max_of_le_left (Nat.cast_nonneg _)
            · norm_num
        rw [hpen]
        exact round_clamp _
  · intro db concept sctx rctx r h
    simp only [findFuzzyMatch] at h
    split at h
    · exact absurd h (by simp)
    · next x xs heq =>
      have hr := (Option.some.inj h).symm
      have hb := pickBest_mem xs x
      rw [← heq] at hb
      have hfilter := List.mem_filter.mp hb
      have h80 : 80 ≤ (pickBest x xs).2 := by
        have := hfilter.2
        simpa using this
      have hmem := hfilter.1
      rcases List.mem_map.mp hmem with ⟨t, ht, hpt⟩
      constructor
      · rw [hr]
        exact h80
      · rw [hr]
        have : (pickBest x xs).2 = calculateFuzzyScore concept t.concept t.synonyms := by
          rw [← hpt]
        rw [this]
        exact calculateFuzzyScore_le_100 _ _ _

/-- Claim C7 (witness): the formula equality at a concrete pair of labels
and the acceptance bounds at a concrete database where the fuzzy stage
returns a match of confidence 100. -/
theorem C7_fuzzy_formula_witness :
    calculateFuzzyScore "Total Assets" "Total Assets" [] =
      specFuzzyScore "Total Assets" "Total Assets" [] ∧
    (80 ≤ fuzzyHit.confidence ∧ fuzzyHit.confidence ≤ 100) := by
  constructor
  · exact C7_fuzzy_formula.1 "Total Assets" "Total Assets" []
  · exact C7_fuzzy_formula.2 fuzzyDb "Revenue" none none fuzzyHit (by decide)

end XbrlSuite

